import Mathlib

/-!
Verification of the Dockerfile argument tokenizer (`lib/parser/dockerfile/split_args.go`),
the entrypoint form resolver (`lib/parser/dockerfile/entrypoint.go`) and the error
translation of the command executor (`lib/builder/step/shell/...` `ExecCommand`).

Go strings are modelled as lists of byte values (`List Nat`, each element < 256).
`splitArgs` iterates `for i := 0; i < len(input); i++` and converts each byte with
`rune(input[i])`, so the machine only ever sees rune values below 256; appending a
rune to a Go string (`s.currArg += string(r)`) UTF-8-encodes it, which for values
128..255 produces two bytes.  Both facts are modelled exactly.
-/

namespace Makisu

/-- `unicode.IsSpace(r)` restricted to rune values below 256 (the only values
`rune(input[i])` can produce): tab, LF, VT, FF, CR, space, NEL (U+0085) and
NBSP (U+00A0). -/
def isSpace (r : Nat) : Bool :=
  r == 9 || r == 10 || r == 11 || r == 12 || r == 13 || r == 32 || r == 133 || r == 160

/-- The shell operator characters `&` (38), `|` (124), `;` (59). -/
def isShellOp (r : Nat) : Bool :=
  r == 38 || r == 124 || r == 59

/-- Go `string(r)` for a rune `r`: the UTF-8 encoding of code point `r`, written out
for `r < 2048`, which covers every byte-valued rune the tokenizer can see.
For `r < 128` this is the single byte `r`; for 128..255 it is two bytes. -/
def runeBytes (r : Nat) : List Nat :=
  if r < 128 then [r] else [192 + r / 64, 128 + r % 64]

/-- `splitArgsBase` (split_args.go:47-53): the data shared by every state of the
machine.  `args` is the finalized token list, `currArg` the in-progress token,
`escaped` the one-character escape flag, `forShell` the mode flag. -/
structure SplitArgsBase where
  args : List (List Nat)
  currArg : List Nat
  escaped : Bool
  forShell : Bool
deriving Repr, DecidableEq

/-- The five states of the `splitArgsState` machine: `splitArgsStateSpace`,
`splitArgsStateArg`, `splitArgsStateQuote`, `splitArgsStateEndQuote`,
`splitArgsStateShellCharacters`. -/
inductive SplitArgsState
  | space
  | arg
  | quote
  | endQuote
  | shellCharacters
deriving Repr, DecidableEq

/-- The errors `splitArgs` can produce, one constructor per Go error site:
`missingClosingQuote c` is `fmt.Errorf("unexpected termination: missing '\"' after
argument: %s", s.currArg)` (split_args.go:148), `missingWhitespaceAfterArgument` is
`errors.New("missing whitespace after argument")` (split_args.go:163), and
`notInAShell` is `errors.New("not in a shell")` (split_args.go:179). -/
inductive SplitErr
  | missingClosingQuote (curr : List Nat)
  | missingWhitespaceAfterArgument
  | notInAShell
deriving Repr, DecidableEq

/-- `splitArgsStateSpace.nextRune` (split_args.go:61-81).  Whitespace is skipped;
`"` enters the quote state (retaining the quote character in shell mode); `\`
arms the escape flag and enters the arg state; in shell mode an operator flushes
any non-empty current token, starts an operator token and enters the
shell-characters state; any other rune is appended and enters the arg state. -/
def spaceNextRune (s : SplitArgsBase) (r : Nat) : SplitArgsState × SplitArgsBase :=
  if isSpace r then
    (.space, s)
  else if r == 34 then
    (.quote, if s.forShell then { s with currArg := s.currArg ++ [34] } else s)
  else if r == 92 then
    (.arg, { s with escaped := true })
  else if s.forShell && isShellOp r then
    (.shellCharacters,
      { s with
        args := if s.currArg.length > 0 then s.args ++ [s.currArg] else s.args,
        currArg := runeBytes r })
  else
    (.arg, { s with currArg := s.currArg ++ runeBytes r })

/-- `splitArgsStateArg.nextRune` (split_args.go:94-113).  With the escape flag set,
a literal backslash is appended unless the rune is whitespace or `"`, the flag is
cleared, and the rune itself is appended (the Go code falls through to
`s.currArg += string(r)`).  Otherwise whitespace flushes the current token and
returns to the space state; in shell mode an operator flushes a non-empty current
token and enters the shell-characters state; any other rune is appended. -/
def argNextRune (s : SplitArgsBase) (r : Nat) : SplitArgsState × SplitArgsBase :=
  if s.escaped then
    (.arg,
      { s with
        currArg :=
          (if !isSpace r && r != 34 then s.currArg ++ [92] else s.currArg) ++ runeBytes r,
        escaped := false })
  else if isSpace r then
    (.space, { s with args := s.args ++ [s.currArg], currArg := [] })
  else if s.forShell && isShellOp r then
    (.shellCharacters,
      { s with
        args := if s.currArg.length > 0 then s.args ++ [s.currArg] else s.args,
        currArg := runeBytes r })
  else
    (.arg, { s with currArg := s.currArg ++ runeBytes r })

/-- `splitArgsStateQuote.nextRune` (split_args.go:125-144).  With the escape flag
set, a literal backslash is appended unless the rune is `"` in plain mode, the
flag is cleared and the rune itself appended (fall-through).  Otherwise `\` arms
the escape flag; `"` closes the token (retaining the quote in shell mode), pushes
it even when empty, and enters the end-quote state; any other rune is appended. -/
def quoteNextRune (s : SplitArgsBase) (r : Nat) : SplitArgsState × SplitArgsBase :=
  if s.escaped then
    (.quote,
      { s with
        currArg :=
          (if r != 34 || s.forShell then s.currArg ++ [92] else s.currArg) ++ runeBytes r,
        escaped := false })
  else if r == 92 then
    (.quote, { s with escaped := true })
  else if r == 34 then
    (.endQuote,
      { s with
        args := s.args ++ [if s.forShell then s.currArg ++ [34] else s.currArg],
        currArg := [] })
  else
    (.quote, { s with currArg := s.currArg ++ runeBytes r })

/-- `splitArgsStateEndQuote.nextRune` (split_args.go:157-166).  The Go condition
`s.forShell && r == '&' || r == '|' || r == ';'` parses, by Go operator
precedence, as `(s.forShell && r == '&') || r == '|' || r == ';'`; the
translation preserves that grouping exactly. -/
def endQuoteNextRune (s : SplitArgsBase) (r : Nat) :
    Except SplitErr (SplitArgsState × SplitArgsBase) :=
  if !isSpace r then
    if (s.forShell && r == 38) || r == 124 || r == 59 then
      .ok (.shellCharacters, { s with currArg := runeBytes r })
    else
      .error .missingWhitespaceAfterArgument
  else
    .ok (.space, s)

/-- `splitArgsStateShellCharacters.nextRune` (split_args.go:177-199).  Outside
shell mode this state errors.  A further operator rune is appended.  Any other
rune flushes a non-empty current token; whitespace clears the current token,
while a non-whitespace rune becomes the new current token; both return to the
space state. -/
def shellCharactersNextRune (s : SplitArgsBase) (r : Nat) :
    Except SplitErr (SplitArgsState × SplitArgsBase) :=
  if !s.forShell then
    .error .notInAShell
  else if !isShellOp r then
    .ok (.space,
      { s with
        args := if s.currArg.length > 0 then s.args ++ [s.currArg] else s.args,
        currArg := if isSpace r then [] else runeBytes r })
  else
    .ok (.shellCharacters, { s with currArg := s.currArg ++ runeBytes r })

/-- The dispatch of `splitArgsState.nextRune` over the five states. -/
def nextRune (st : SplitArgsState) (s : SplitArgsBase) (r : Nat) :
    Except SplitErr (SplitArgsState × SplitArgsBase) :=
  match st with
  | .space => .ok (spaceNextRune s r)
  | .arg => .ok (argNextRune s r)
  | .quote => .ok (quoteNextRune s r)
  | .endQuote => endQuoteNextRune s r
  | .shellCharacters => shellCharactersNextRune s r

/-- The dispatch of `splitArgsState.endOfInput` (split_args.go:84-86, 116-118,
147-150, 169-171, 202-204).  Note that the shell-characters state returns
`s.args` without flushing `s.currArg`. -/
def endOfInput (st : SplitArgsState) (s : SplitArgsBase) :
    Except SplitErr (List (List Nat)) :=
  match st with
  | .space => .ok s.args
  | .arg => .ok (s.args ++ [s.currArg])
  | .quote => .error (.missingClosingQuote s.currArg)
  | .endQuote => .ok s.args
  | .shellCharacters => .ok s.args

/-- The driving loop of `splitArgs` (split_args.go:30-36): feed each byte to the
current state, aborting on the first error, and call `endOfInput` at the end. -/
def runSplit (st : SplitArgsState) (s : SplitArgsBase) :
    List Nat → Except SplitErr (List (List Nat))
  | [] => endOfInput st s
  | r :: rs =>
    match nextRune st s r with
    | .error e => .error e
    | .ok (st', s') => runSplit st' s' rs

/-- `splitArgs(input, forShell)` (split_args.go:25-37): run the machine from the
space state over the bytes of `input`. -/
def splitArgs (input : List Nat) (forShell : Bool) :
    Except SplitErr (List (List Nat)) :=
  runSplit .space ⟨[], [], false, forShell⟩ input

/-- `strings.Join(args, " ")` (entrypoint.go:46): concatenate the tokens with a
single space byte (32) between consecutive tokens. -/
def joinSpace : List (List Nat) → List Nat
  | [] => []
  | [t] => t
  | t :: ts => t ++ 32 :: joinSpace ts

/-- The bytes of `"/bin/sh"`. -/
def binSh : List Nat := [47, 98, 105, 110, 47, 115, 104]

/-- The bytes of `"-c"`. -/
def dashC : List Nat := [45, 99]

/-- The entrypoint form resolution of `newEntrypointDirective`
(entrypoint.go:30-48), after the external variable substitution
(`replaceVarsCurrStage`) has produced the raw argument string.  `parseJSONArray`
is the external JSON-array primitive (`parseJSONArray(base.Args)`), passed in as
a parameter: when it succeeds its array is the result (exec form); otherwise the
raw string is tokenized with `forShell = true`, any tokenizer error propagates,
and the result is `/bin/sh -c <tokens joined with single spaces>` (shell form). -/
def resolveEntrypoint (parseJSONArray : List Nat → Option (List (List Nat)))
    (raw : List Nat) : Except SplitErr (List (List Nat)) :=
  match parseJSONArray raw with
  | some entrypoint => .ok entrypoint
  | none =>
    match splitArgs raw true with
    | .error e => .error e
    | .ok args => .ok ([binSh, dashC] ++ [joinSpace args])

/-- The outcome of `cmd.Start()` followed by `cmd.Wait()` in `ExecCommand`:
either starting fails, or the process runs and exits non-zero (Go's
`*exec.ExitError`), or waiting fails for another reason, or the process exits
zero. -/
inductive WaitOutcome
  | startFailed (msg : String)
  | exitedNonZero (code : Int)
  | waitFailed (msg : String)
  | exitedZero
deriving Repr, DecidableEq

/-- The structured result of `ExecCommand`: `ok` for a zero exit, `exitError c`
for the returned `*exec.ExitError` carrying exit code `c`, `startError` for the
wrapped `fmt.Errorf("cmd start: %s", err)`, `waitError` for the wrapped
`fmt.Errorf("cmd wait: %s", err)`. -/
inductive ExecResult
  | ok
  | exitError (code : Int)
  | startError (msg : String)
  | waitError (msg : String)
deriving Repr, DecidableEq

/-- The error-translation tail of `ExecCommand` (the `cmd.Start()` /
`cmd.Wait()` branch): given the process outcome, the returned result together
with the list of lines this branch writes to the `errStream` sink.  A non-zero
exit emits `errStream("Command exited with %d\n", exitCode)` and returns the
exit error; a start failure or a wait failure emits nothing on this path and
returns the corresponding wrapped structural error. -/
def execCommandFinish : WaitOutcome → ExecResult × List String
  | .startFailed msg => (.startError ("cmd start: " ++ msg), [])
  | .exitedNonZero code =>
    (.exitError code, ["Command exited with " ++ toString code ++ "\n"])
  | .waitFailed msg => (.waitError ("cmd wait: " ++ msg), [])
  | .exitedZero => (.ok, [])

/-- A byte that may appear in a plain-mode round-trip token: ASCII (below 128,
so Go's rune-to-string re-encoding is the identity), not whitespace, not a
double quote, not a backslash. -/
def plainWordByte (b : Nat) : Bool :=
  decide (b < 128) && !isSpace b && b != 34 && b != 92

/-- A token list suitable for the plain-mode round-trip: every token non-empty
and made of `plainWordByte`s. -/
def goodTokens (ts : List (List Nat)) : Bool :=
  ts.all fun t => !t.isEmpty && t.all plainWordByte

/-! ## Helper lemmas -/

theorem runeBytes_ascii {b : Nat} (h : b < 128) : runeBytes b = [b] := by
  simp [runeBytes, h]

theorem plainWordByte_props {b : Nat} (h : plainWordByte b = true) :
    b < 128 ∧ isSpace b = false ∧ (b == 34) = false ∧ (b == 92) = false := by
  simp only [plainWordByte, Bool.and_eq_true, decide_eq_true_eq, Bool.not_eq_true',
    bne_iff_ne, ne_eq] at h
  refine ⟨h.1.1.1, h.1.1.2, ?_, ?_⟩
  · simpa using h.1.2
  · simpa using h.2

/-- A plain-mode `arg`-state step on a plain word byte appends the byte and
stays in the `arg` state. -/
theorem argNextRune_plain (A : List (List Nat)) (c : List Nat) {b : Nat}
    (hb : plainWordByte b = true) :
    argNextRune ⟨A, c, false, false⟩ b = (.arg, ⟨A, c ++ [b], false, false⟩) := by
  obtain ⟨h1, h2, _, _⟩ := plainWordByte_props hb
  simp [argNextRune, h2, runeBytes_ascii h1]

/-- A plain-mode `space`-state step on a plain word byte appends the byte and
enters the `arg` state. -/
theorem spaceNextRune_plain (A : List (List Nat)) (c : List Nat) {b : Nat}
    (hb : plainWordByte b = true) :
    spaceNextRune ⟨A, c, false, false⟩ b = (.arg, ⟨A, c ++ [b], false, false⟩) := by
  obtain ⟨h1, h2, h3, h4⟩ := plainWordByte_props hb
  simp [spaceNextRune, h2, h3, h4, runeBytes_ascii h1]

/-- Running the machine in the `arg` state over a word of plain bytes appends
the whole word to the current token. -/
theorem runSplit_arg_word (w : List Nat) :
    ∀ (rest : List Nat) (A : List (List Nat)) (c : List Nat),
      w.all plainWordByte = true →
      runSplit .arg ⟨A, c, false, false⟩ (w ++ rest) =
        runSplit .arg ⟨A, c ++ w, false, false⟩ rest := by
  induction w with
  | nil => intro rest A c _; simp
  | cons b w ih =>
    intro rest A c hw
    simp only [List.all_cons, Bool.and_eq_true] at hw
    rw [List.cons_append, runSplit]
    simp only [nextRune]
    rw [argNextRune_plain A c hw.1]
    show runSplit .arg ⟨A, c ++ [b], false, false⟩ (w ++ rest) = _
    rw [ih rest A (c ++ [b]) hw.2]
    simp

/-- Tokenizing the space-joined good token list from the `space` state with
empty current token appends exactly those tokens to the accumulated list. -/
theorem runSplit_space_join (ts : List (List Nat)) :
    ∀ A : List (List Nat), goodTokens ts = true →
      runSplit .space ⟨A, [], false, false⟩ (joinSpace ts) = .ok (A ++ ts) := by
  induction ts with
  | nil => intro A _; simp [joinSpace, runSplit, endOfInput]
  | cons t ts ih =>
    intro A hg
    simp only [goodTokens, List.all_cons, Bool.and_eq_true] at hg
    obtain ⟨⟨hne, hall⟩, hgood⟩ := hg
    obtain ⟨b, t', rfl⟩ : ∃ b t', t = b :: t' := by
      cases t with
      | nil => simp at hne
      | cons b t' => exact ⟨b, t', rfl⟩
    simp only [List.all_cons, Bool.and_eq_true] at hall
    cases ts with
    | nil =>
      have hj : joinSpace [b :: t'] = b :: (t' ++ []) := by simp [joinSpace]
      rw [hj, runSplit]
      simp only [nextRune]
      rw [spaceNextRune_plain A [] hall.1]
      show runSplit .arg ⟨A, [b], false, false⟩ (t' ++ []) = _
      rw [runSplit_arg_word t' [] A [b] hall.2]
      show Except.ok (A ++ [b :: t']) = _
      simp
    | cons t2 ts2 =>
      have hj : joinSpace ((b :: t') :: t2 :: ts2) =
          b :: (t' ++ 32 :: joinSpace (t2 :: ts2)) := by simp [joinSpace]
      rw [hj, runSplit]
      simp only [nextRune]
      rw [spaceNextRune_plain A [] hall.1]
      show runSplit .arg ⟨A, [b], false, false⟩ (t' ++ 32 :: joinSpace (t2 :: ts2)) = _
      rw [runSplit_arg_word t' _ A [b] hall.2]
      show runSplit .space ⟨A ++ [b :: t'], [], false, false⟩ (joinSpace (t2 :: ts2)) = _
      rw [ih (A ++ [b :: t']) hgood]
      simp

/-! ## Theorems about the claims -/

/-- C1, counterexample: in plain mode, tokenizing `""""` (four double quotes) does
not succeed with two empty tokens; the third quote arrives in the end-quote
state, which accepts only whitespace, so the run fails with
"missing whitespace after argument". -/
theorem C1_counterexample :
    splitArgs [34, 34, 34, 34] false = .error .missingWhitespaceAfterArgument := rfl

/-- C1, amended: in plain mode, `""""` fails with "missing whitespace after
argument" (no whitespace between the closing and the next opening quote), while
`"" ""` (quote pairs separated by a space) succeeds with exactly two tokens,
both the empty string. -/
theorem C1_adjacentQuotedEmpties :
    splitArgs [34, 34, 34, 34] false = .error .missingWhitespaceAfterArgument ∧
    splitArgs [34, 34, 32, 34, 34] false = .ok [[], []] :=
  ⟨rfl, rfl⟩

/-- C2, counterexample: in plain mode, tokenizing `a"b` does not fail: the quote
arrives in the arg state, where it is appended literally, so the run succeeds
with the single token `a"b`. -/
theorem C2_counterexample :
    splitArgs [97, 34, 98] false = .ok [[97, 34, 98]] := rfl

/-- C2, amended: in plain mode a double quote inside an unquoted word is a
literal character (`a"b` yields the single token `a"b`); the
unterminated-argument error arises only when a quote opens a token and is never
closed (`"b` fails with "unexpected termination: missing '\"' after argument: b"). -/
theorem C2_quoteInsideWord :
    splitArgs [97, 34, 98] false = .ok [[97, 34, 98]] ∧
    splitArgs [34, 98] false = .error (.missingClosingQuote [98]) :=
  ⟨rfl, rfl⟩

/-- C3, counterexample: in shell mode, tokenizing `ls &&` does not end with the
token `&&`: end of input in the shell-characters state returns the accumulated
tokens without flushing the pending operator, giving `["ls"]`. -/
theorem C3_counterexample :
    splitArgs [108, 115, 32, 38, 38] true = .ok [[108, 115]] := rfl

/-- C3, amended: end of input in the shell-characters state returns `s.args`
unchanged, discarding the pending operator token held in `s.currArg`; hence
`tokenize("ls &&", shellMode=true)` yields `["ls"]` with no trailing `&&`. -/
theorem C3_operatorDroppedAtEOI :
    (∀ s : SplitArgsBase, endOfInput .shellCharacters s = .ok s.args) ∧
    splitArgs [108, 115, 32, 38, 38] true = .ok [[108, 115]] :=
  ⟨fun _ => rfl, rfl⟩

/-- C4, counterexample: in shell mode, tokenizing `a&&b c` does not yield
`["a", "&&", "b", "c"]`: it yields `["a", "&&", "bc"]`, because after the
operator run the character `b` is kept as the current token while the machine
returns to the space state, where the following space is skipped without
flushing and `c` is appended to the same token. -/
theorem C4_counterexample :
    splitArgs [97, 38, 38, 98, 32, 99] true = .ok [[97], [38, 38], [98, 99]] ∧
    [[97], [38, 38], [98, 99]] ≠ [[97], [38, 38], [98], [99]] :=
  ⟨rfl, by decide⟩

/-- C4, amended: in shell mode, a non-operator character after a run of operator
characters flushes the operator token; whitespace clears the current token while
any other character becomes the new current token, and the machine moves to the
space state.  The space state skips whitespace without flushing, so the kept
character is not terminated by the next whitespace: `a&&b c` yields
`["a", "&&", "bc"]`. -/
theorem C4_shellRedispatch (s : SplitArgsBase) (r : Nat) (hs : s.forShell = true)
    (hop : isShellOp r = false) (hsp : isSpace r = false) :
    shellCharactersNextRune s r =
      .ok (.space,
        { s with
          args := if s.currArg.length > 0 then s.args ++ [s.currArg] else s.args,
          currArg := runeBytes r }) ∧
    splitArgs [97, 38, 38, 98, 32, 99] true = .ok [[97], [38, 38], [98, 99]] := by
  refine ⟨?_, rfl⟩
  simp [shellCharactersNextRune, hs, hop, hsp]

/-- Witness for `C4_shellRedispatch` at the concrete step of `a&&b c`: the byte
`b` (98) arriving in the shell-characters state with pending operator `&&`. -/
theorem C4_shellRedispatch_witness :
    shellCharactersNextRune ⟨[[97]], [38, 38], false, true⟩ 98 =
      .ok (.space, ⟨[[97], [38, 38]], [98], false, true⟩) ∧
    splitArgs [97, 38, 38, 98, 32, 99] true = .ok [[97], [38, 38], [98, 99]] :=
  C4_shellRedispatch ⟨[[97]], [38, 38], false, true⟩ 98 rfl rfl rfl

/-- C5: the end-quote condition `s.forShell && r == '&' || r == '|' || r == ';'`
groups, by Go operator precedence, as `(s.forShell && r == '&') || r == '|' ||
r == ';'`, so in plain mode `|` and `;` after a closing quote are accepted into
the shell-characters state instead of erroring: `"a";` and `"a"|` tokenize
successfully to `["a"]` (the pending operator is then dropped at end of input),
and `"a"|x` errors "not in a shell" — only `&` yields the documented
"missing whitespace after argument". -/
theorem C5_precedenceBug :
    splitArgs [34, 97, 34, 59] false = .ok [[97]] ∧
    splitArgs [34, 97, 34, 124] false = .ok [[97]] ∧
    splitArgs [34, 97, 34, 124, 120] false = .error .notInAShell ∧
    splitArgs [34, 97, 34, 38] false = .error .missingWhitespaceAfterArgument :=
  ⟨rfl, rfl, rfl, rfl⟩

/-- C6: `resolveEntrypoint` produces exactly one of two mutually exclusive
forms.  When the raw string parses as a JSON array, that array is the result
with no tokenization (exec form); otherwise the raw string is tokenized in
shell mode, a tokenizer error propagates unchanged, and a successful run yields
the three-element sequence `/bin/sh`, `-c`, tokens joined with single spaces
(shell form). -/
theorem C6_resolveEntrypointForms
    (pj : List Nat → Option (List (List Nat))) (raw : List Nat) :
    (∃ arr, pj raw = some arr ∧ resolveEntrypoint pj raw = .ok arr) ∨
    (pj raw = none ∧
      ((∃ e, splitArgs raw true = .error e ∧ resolveEntrypoint pj raw = .error e) ∨
       (∃ args, splitArgs raw true = .ok args ∧
         resolveEntrypoint pj raw = .ok [binSh, dashC, joinSpace args]))) := by
  rcases hpj : pj raw with _ | arr
  · rcases hsp : splitArgs raw true with e | args
    · refine Or.inr ⟨rfl, Or.inl ⟨e, rfl, ?_⟩⟩
      simp [resolveEntrypoint, hpj, hsp]
    · refine Or.inr ⟨rfl, Or.inr ⟨args, rfl, ?_⟩⟩
      simp [resolveEntrypoint, hpj, hsp]
  · refine Or.inl ⟨arr, rfl, ?_⟩
    simp [resolveEntrypoint, hpj]

/-- C7: when the child process starts and exits with a non-zero code, the
stderr sink receives the formatted line `Command exited with <code>` and the
result is the exit-code failure carrying that code, which differs from every
start failure. -/
theorem C7_exitCodeReported (code : Int) (h : code ≠ 0) :
    execCommandFinish (.exitedNonZero code) =
      (.exitError code, ["Command exited with " ++ toString code ++ "\n"]) ∧
    ∀ msg, ExecResult.exitError code ≠ ExecResult.startError msg :=
  ⟨rfl, fun _ hc => ExecResult.noConfusion hc⟩

/-- Witness for `C7_exitCodeReported` at exit code 7. -/
theorem C7_exitCodeReported_witness :
    execCommandFinish (.exitedNonZero 7) =
      (.exitError 7, ["Command exited with " ++ toString (7 : Int) ++ "\n"]) ∧
    ∀ msg, ExecResult.exitError 7 ≠ ExecResult.startError msg :=
  C7_exitCodeReported 7 (by decide)

/-- C8, counterexample: the single token `é` (UTF-8 bytes 195 169) contains no
whitespace, no double quote and no backslash, yet joining and re-tokenizing in
plain mode does not return it: each byte is converted to a rune and re-encoded
in UTF-8 when appended, so the result is the single token 195 131 194 169. -/
theorem C8_counterexample :
    splitArgs (joinSpace [[195, 169]]) false = .ok [[195, 131, 194, 169]] ∧
    [[195, 131, 194, 169]] ≠ [[195, 169]] ∧
    isSpace 195 = false ∧ isSpace 169 = false ∧
    (195 == 34) = false ∧ (169 == 34) = false ∧
    (195 == 92) = false ∧ (169 == 92) = false :=
  ⟨rfl, by decide, rfl, rfl, rfl, rfl, rfl, rfl⟩

/-- C8, amended: for every sequence of non-empty tokens whose bytes are ASCII
(below 128) and include no whitespace, no double quote and no backslash,
tokenizing the string formed by joining the tokens with single spaces in plain
mode returns exactly the original token sequence. -/
theorem C8_roundTrip (ts : List (List Nat)) (h : goodTokens ts = true) :
    splitArgs (joinSpace ts) false = .ok ts := by
  have := runSplit_space_join ts [] h
  simpa [splitArgs] using this

/-- Witness for `C8_roundTrip` at the token list `["a", "bc"]`. -/
theorem C8_roundTrip_witness :
    goodTokens [[97], [98, 99]] = true ∧
    splitArgs (joinSpace [[97], [98, 99]]) false = .ok [[97], [98, 99]] :=
  ⟨by decide, C8_roundTrip [[97], [98, 99]] (by decide)⟩

/-- C9: starting from a cleared escape flag, a step that leaves the flag armed
can only be a backslash (92) processed in the space state or in the quote
state; in particular a backslash in the middle of an unquoted word (the arg
state) never arms the flag — it is appended literally — so in plain mode
`a\ b` tokenizes to the two tokens `a\` and `b`. -/
theorem C9_escapeArming (st st' : SplitArgsState) (s s' : SplitArgsBase) (r : Nat)
    (hesc : s.escaped = false) (hstep : nextRune st s r = .ok (st', s'))
    (harm : s'.escaped = true) :
    (r = 92 ∧ (st = .space ∨ st = .quote)) ∧
    splitArgs [97, 92, 32, 98] false = .ok [[97, 92], [98]] := by
  refine ⟨?_, rfl⟩
  obtain ⟨A, c, esc, fs⟩ := s
  replace hesc : esc = false := hesc
  subst hesc
  cases st <;>
      simp only [nextRune, spaceNextRune, argNextRune, quoteNextRune, endQuoteNextRune,
        shellCharactersNextRune] at hstep <;>
      repeat' split at hstep
  all_goals
    first
      | exact Except.noConfusion hstep
      | (simp only [Except.ok.injEq, Prod.mk.injEq] at hstep
         obtain ⟨h1, h2⟩ := hstep
         subst h2
         simp_all)

/-- Witness for `C9_escapeArming`: the space state arming the flag on a
backslash, in plain mode with empty accumulators. -/
theorem C9_escapeArming_witness :
    (92 = 92 ∧ (SplitArgsState.space = .space ∨ SplitArgsState.space = .quote)) ∧
    splitArgs [97, 92, 32, 98] false = .ok [[97, 92], [98]] :=
  C9_escapeArming .space .arg ⟨[], [], false, false⟩ ⟨[], [], true, false⟩ 92
    rfl rfl rfl

/-- C10, counterexample: the two-byte UTF-8 character NBSP (U+00A0, bytes
194 160) does act as a token separator in `a<NBSP>b`: its continuation byte 160
is itself whitespace for `unicode.IsSpace`, so the result is two tokens (and the
lead byte 194 is re-encoded to 195 130 inside the first token) — not the single
token of the input's constituent bytes. -/
theorem C10_counterexample :
    splitArgs [97, 194, 160, 98] false = .ok [[97, 195, 130], [98]] ∧
    [[97, 195, 130], [98]] ≠ [[97, 194, 160, 98]] :=
  ⟨rfl, by decide⟩

/-- C10, amended: the input is consumed byte by byte, each byte converted
individually to a character, but a byte is not appended verbatim: appending
re-encodes it in UTF-8, expanding bytes at or above 128 into two bytes
(`aéb`, bytes 97 195 169 98, becomes the single token 97 195 131 194 169 98);
and the byte values 133 and 160 are themselves whitespace, so a multi-byte
character containing such a byte (NBSP, bytes 194 160) splits tokens at that
byte. -/
theorem C10_bytewiseConsumption :
    splitArgs [97, 194, 160, 98] false = .ok [[97, 195, 130], [98]] ∧
    splitArgs [97, 195, 169, 98] false = .ok [[97, 195, 131, 194, 169, 98]] ∧
    isSpace 160 = true ∧ isSpace 133 = true ∧
    runeBytes 194 = [195, 130] ∧ runeBytes 160 = [194, 160] :=
  ⟨rfl, rfl, rfl, rfl, rfl, rfl⟩

end Makisu
